import Mathlib

/-! Shallow embedding of `prune.py` from UniversalFakeDetection: module-level
environment access, the argparse choice checks, the entry block's nomask
normalisation, `main`'s mask-ratio check, mask-generator and backbone dispatch,
checkpoint restoration, together with a spec-level model of the iterative
magnitude-pruning engine and of the augmentation pipeline (whose code lives in
companion files `utils.py`, `mask.py` and `augment.py`). -/

/-- Python exceptions and argparse exits that `prune.py` can surface. -/
inductive PyErr where
  | valueError (msg : String)
  | nameError (missing : String)
  | keyError (key : String)
  | argparseError (msg : String)
  | loadError (msg : String)
  deriving DecidableEq

/-- The mask generators constructed in `main` (prune.py lines 86-93), identified
by their constructor arguments. -/
inductive MaskGenerator where
  | frequency (ratio : ℚ) (band : String)
  | pixel (ratio : ℚ)
  | patch (ratio : ℚ)
  deriving DecidableEq

/-- The mask-generator dispatch of `main` (prune.py lines 86-93): spectral, pixel
and patch build the corresponding generator; every other mask_type (in particular
nomask) yields no generator. -/
def makeMaskGenerator (ratio : ℚ) (band mask_type : String) : Option MaskGenerator :=
  if mask_type = "spectral" then some (MaskGenerator.frequency ratio band)
  else if mask_type = "pixel" then some (MaskGenerator.pixel ratio)
  else if mask_type = "patch" then some (MaskGenerator.patch ratio)
  else none

/-- Images, abstracted to a grid of rational intensities. -/
abbrev Image := List (List ℚ)

/-- Modelled from the spec: `train_augment`/`val_augment` (in `utils.py`, not
under src) apply the mask generator to the sample when one is present; per spec
section 4.1 the None variant is the identity and the image passes through
unmodified. The behaviour of a present generator is an opaque parameter. -/
def applyMaskStep (ap : MaskGenerator → Image → Image) :
    Option MaskGenerator → Image → Image
  | none, im => im
  | some g, im => ap g im

/-- Python's str.startswith, on the character lists underlying the strings. -/
def pyStartswith (s p : String) : Bool :=
  List.isPrefixOf p.data s.data

/-- The backbones `main` can instantiate (prune.py lines 113-123). -/
inductive Backbone where
  | rn50
  | rn50mod
  | clipvit
  deriving DecidableEq

/-- The backbone dispatch of `main` (prune.py lines 113-123): RN50, RN50_mod,
any clip-prefixed name, and otherwise `raise ValueError`. -/
def buildModel (model_name : String) : Except PyErr Backbone :=
  if model_name = "RN50" then Except.ok Backbone.rn50
  else if model_name = "RN50_mod" then Except.ok Backbone.rn50mod
  else if pyStartswith model_name "clip" then Except.ok Backbone.clipvit
  else Except.error (PyErr.valueError ("Model " ++ model_name ++ " not recognized!"))

/-- Observable steps of `main`, in program order. -/
inductive Event where
  | initProcessGroup
  | maskGeneratorConstructed (g : Option MaskGenerator)
  | dataLoaded
  | modelBuilt
  | checkpointLoaded (headOnly : Bool)
  | pruningStarted
  deriving DecidableEq

/-- A state dict: parameter names with their tensor shapes. -/
abbrev StateDict := List (String × List Nat)

/-- External state `main` reads: the contents of the checkpoint file at
args.checkpoint_path, and the parameter shapes of each backbone's full state
dict and of its final head (`model.module.fc`). -/
structure TorchEnv where
  checkpointFile : StateDict
  modelDict : Backbone → StateDict
  headDict : Backbone → StateDict

/-- prune.py lines 136-139: for args.model_name equal to clip only the head
`model.module.fc` receives the checkpoint, otherwise the full model does. -/
def loadTarget (argsModelName : String) (e : TorchEnv) (b : Backbone) : StateDict :=
  if argsModelName = "clip" then e.headDict b else e.modelDict b

/-- The events of `main` up to and including dataset construction
(prune.py lines 58-110). -/
def traceHead (ratio : ℚ) (band mask_type : String) : List Event :=
  [Event.initProcessGroup,
   Event.maskGeneratorConstructed (makeMaskGenerator ratio band mask_type),
   Event.dataLoaded]

/-- `main` after the backbone dispatch (prune.py lines 125-151): when
args.pretrained is false the checkpoint is loaded into the head (clip) or the
full model (otherwise), with a strict shape/key comparison as in
`load_state_dict`; only then does `iterative_pruning_finetuning` start. -/
def afterModel (ratio : ℚ) (band mask_type : String) (argsPretrained : Bool)
    (argsModelName : String) (e : TorchEnv) :
    Except PyErr Backbone → List Event × Option PyErr
  | Except.error err => (traceHead ratio band mask_type, some err)
  | Except.ok b =>
    if argsPretrained = false then
      if loadTarget argsModelName e b = e.checkpointFile then
        (traceHead ratio band mask_type ++
          [Event.modelBuilt, Event.checkpointLoaded (argsModelName == "clip"),
           Event.pruningStarted], none)
      else
        (traceHead ratio band mask_type ++ [Event.modelBuilt],
         some (PyErr.loadError "size mismatch for state_dict"))
    else
      (traceHead ratio band mask_type ++ [Event.modelBuilt, Event.pruningStarted], none)

/-- The body of `main` (prune.py lines 34-151), as the trace of observable events
together with the exception it raises, if any. The mask-ratio check at lines
82-83 spells the exception name `valueError` in lowercase; no such name is
defined anywhere, so Python raises NameError there. -/
def mainSteps (ratio : ℚ) (band mask_type model_name : String)
    (argsPretrained : Bool) (argsModelName : String) (e : TorchEnv) :
    List Event × Option PyErr :=
  if ratio > 1 ∨ ratio < 0 then
    ([Event.initProcessGroup], some (PyErr.nameError "valueError"))
  else
    afterModel ratio band mask_type argsPretrained argsModelName e (buildModel model_name)

/-- The command-line arguments of prune.py (lines 155-259). -/
structure Args where
  local_rank : Int
  num_epochs : Int
  model_name : String
  band : String
  pretrained : Bool
  smallset : Bool
  mask_type : String
  batch_size : Int
  ratio : Int
  lr : ℚ
  pruning_ft : Bool
  pruning_test : Bool
  global_prune : Bool
  conv2d_prune_amount : ℚ
  linear_prune_amount : ℚ
  pruning_rounds : Int
  seed : Int
  checkpoint_path : String
  deriving DecidableEq

/-- The keyword arguments of the call to `main` (prune.py lines 293-303). -/
structure MainCall where
  local_rank : Int
  num_epochs : Int
  ratio : ℚ
  batch_size : Int
  model_name : String
  band : String
  mask_type : String
  pretrained : Bool
  args : Args
  deriving DecidableEq

/-- argparse choices for --model_name (prune.py lines 159-169). -/
def model_name_choices : List String := ["RN18", "RN34", "RN50", "RN50_mod", "clip"]

/-- argparse choices for --band (prune.py lines 170-177). -/
def band_choices : List String := ["all", "low", "mid", "high"]

/-- argparse choices for --mask_type (prune.py lines 188-197). -/
def mask_type_choices : List String := ["pixel", "spectral", "patch", "nomask"]

/-- The argparse choice validation: any value outside the declared choices makes
the parser exit with an error before `main` runs. -/
def parseArgs (a : Args) : Except PyErr Args :=
  if a.model_name ∈ model_name_choices then
    if a.band ∈ band_choices then
      if a.mask_type ∈ mask_type_choices then Except.ok a
      else Except.error (PyErr.argparseError "argument --mask_type: invalid choice")
    else Except.error (PyErr.argparseError "argument --band: invalid choice")
  else Except.error (PyErr.argparseError "argument --model_name: invalid choice")

/-- The `ratio` local of the entry block (prune.py lines 266-272). -/
def entryRatioVar (a : Args) : Int :=
  if a.mask_type ≠ "nomask" then a.ratio else 0

/-- The band value after the entry block, which overwrites args.band for nomask
(prune.py line 271). -/
def entryBand (a : Args) : String :=
  if a.mask_type ≠ "nomask" then a.band else "None"

/-- args after the entry block (prune.py lines 266-272). -/
def entryArgs (a : Args) : Args :=
  if a.mask_type ≠ "nomask" then a else { a with band := "None" }

/-- The `ckpt_folder` local of the entry block (prune.py lines 268 and 272). -/
def entryCkptFolder (a : Args) : String :=
  if a.mask_type ≠ "nomask" then "./checkpoints/mask_" ++ toString a.ratio
  else "./checkpoints/mask_" ++ toString (0 : Int)

/-- The call to `main` built by the entry block (prune.py lines 293-303):
num_epochs is the literal 5, ratio is the entry-block ratio divided by 100. -/
def entryMainCall (a : Args) : MainCall :=
  { local_rank := a.local_rank
    num_epochs := 5
    ratio := (entryRatioVar a : ℚ) / 100
    batch_size := a.batch_size
    model_name := a.model_name
    band := entryBand a
    mask_type := a.mask_type
    pretrained := a.pretrained
    args := entryArgs a }

/-- `main` on a keyword-argument record: the body reads the ratio, band,
mask_type and model_name parameters and the args fields pretrained and
model_name. -/
def mainRunC (c : MainCall) (e : TorchEnv) : List Event × Option PyErr :=
  mainSteps c.ratio c.band c.mask_type c.model_name c.args.pretrained c.args.model_name e

/-- A process environment: key-value pairs, first match wins. -/
abbrev Environ := List (String × String)

/-- os.environ assignment, modelled as shadowing prepend. -/
def setEnv (env : Environ) (k v : String) : Environ := (k, v) :: env

/-- os.environ lookup; a missing key is Python's KeyError. -/
def envLookup : Environ → String → Option String
  | [], _ => none
  | (k, v) :: rest, key => if k = key then some v else envLookup rest key

/-- The two NCCL assignments at module import (prune.py lines 29-30). -/
def ncclEnv (env : Environ) : Environ :=
  setEnv (setEnv env "NCCL_BLOCKING_WAIT" "1") "NCCL_DEBUG" "WARN"

/-- Running the module: the bare `os.environ` subscript at prune.py line 32
raises KeyError when LOCAL_RANK is unset, before the entry block parses any
argument; otherwise argparse validates the choices and the entry block calls
`main`. -/
def moduleRun (env : Environ) (a : Args) (e : TorchEnv) : List Event × Option PyErr :=
  match envLookup (ncclEnv env) "LOCAL_RANK" with
  | none => ([], some (PyErr.keyError "LOCAL_RANK"))
  | some _ =>
    match parseArgs a with
    | Except.error err => ([], some err)
    | Except.ok a2 => mainRunC (entryMainCall a2) e

/-- The augmentation options records of `main` (prune.py lines 62-80). -/
structure AugmentOpt where
  rz_interp : List String
  loadSize : Nat
  blur_prob : ℚ
  blur_sig : List ℚ
  jpg_prob : ℚ
  jpg_method : List String
  jpg_qual : List Nat
  deriving DecidableEq

/-- train_opt (prune.py lines 62-70). -/
def train_opt : AugmentOpt :=
  { rz_interp := ["bilinear"]
    loadSize := 256
    blur_prob := 1/10
    blur_sig := [0, 3]
    jpg_prob := 1/10
    jpg_method := ["cv2", "pil"]
    jpg_qual := [30, 100] }

/-- val_opt (prune.py lines 72-80): blur_sig is the midpoint (0.0 + 3.0) / 2 and
jpg_qual the midpoint int((30 + 100) / 2); blur_prob and jpg_prob keep the train
values. -/
def val_opt : AugmentOpt :=
  { rz_interp := ["bilinear"]
    loadSize := 256
    blur_prob := 1/10
    blur_sig := [(0 + 3) / 2]
    jpg_prob := 1/10
    jpg_method := ["pil"]
    jpg_qual := [(30 + 100) / 2] }

/-- Modelled from the spec: the per-sample randomness the augmentation pipeline
(`augment.py`, not under src) consumes — a uniform draw deciding blur, a draw
for the sigma within its range, a uniform draw deciding re-encoding, and draws
selecting the method and the quality. -/
structure Draws where
  blurCoin : ℚ
  sigDraw : ℚ
  jpgCoin : ℚ
  methodDraw : Nat
  qualDraw : Nat

/-- What the augmentation pipeline does to one sample: which perturbations are
applied and with which parameters. -/
structure AugPlan where
  blurApplied : Bool
  blurSigma : Option ℚ
  jpgApplied : Bool
  jpgMethodChosen : Option String
  jpgQualityChosen : Option Nat
  deriving DecidableEq

/-- A value from a continuous range: a one-element range is that element, a
two-element range clamps the draw into the interval. -/
def pickCont (r : List ℚ) (d : ℚ) : ℚ :=
  match r with
  | [] => d
  | [x] => x
  | x :: y :: _ => max x (min d y)

/-- A value from a discrete choice list, selected by the draw. -/
def pickDisc {α : Type} [Inhabited α] (r : List α) (d : Nat) : α :=
  r.getD (d % r.length) default

/-- Modelled from the spec: the augmentation pipeline (`augment.py`, not under
src) applies Gaussian blur with probability blur_prob and sigma from blur_sig,
and re-encoding with probability jpg_prob, method from jpg_method and quality
from jpg_qual (spec section 4.2). -/
def augPlan (opt : AugmentOpt) (d : Draws) : AugPlan :=
  { blurApplied := decide (d.blurCoin < opt.blur_prob)
    blurSigma :=
      if d.blurCoin < opt.blur_prob then some (pickCont opt.blur_sig d.sigDraw) else none
    jpgApplied := decide (d.jpgCoin < opt.jpg_prob)
    jpgMethodChosen :=
      if d.jpgCoin < opt.jpg_prob then some (pickDisc opt.jpg_method d.methodDraw) else none
    jpgQualityChosen :=
      if d.jpgCoin < opt.jpg_prob then some (pickDisc opt.jpg_qual d.qualDraw) else none }

/-- Insert into a list sorted by the given comparison. -/
def insertBy (le : Nat → Nat → Bool) (x : Nat) : List Nat → List Nat
  | [] => [x]
  | y :: ys => if le x y then x :: y :: ys else y :: insertBy le x ys

/-- Insertion sort by the given comparison. -/
def sortBy (le : Nat → Nat → Bool) : List Nat → List Nat
  | [] => []
  | x :: xs => insertBy le x (sortBy le xs)

/-- Order on flat weight positions: by absolute magnitude, ties broken by the
position index, so the selection is deterministic. -/
def magLe (w : List ℚ) (i j : Nat) : Bool :=
  decide (|w.getD i 0| < |w.getD j 0| ∨ (|w.getD i 0| = |w.getD j 0| ∧ i ≤ j))

/-- Modelled from the spec: one pruning selection of the engine driven by
`iterative_pruning_finetuning` (in `utils.py`, not under src). Per spec section
4.4 a round removes the `amount` fraction of the remaining unpruned weights,
lowest absolute magnitude first, with a stable index tie-break. -/
def pruneSelect (w : List ℚ) (zeroed : List Bool) (amount : ℚ) : List Nat :=
  let rem := (List.range zeroed.length).filter (fun i => !(zeroed.getD i false))
  let k := (Int.floor (amount * (rem.length : ℚ))).toNat
  (sortBy (magLe w) rem).take k

/-- Mark the selected positions as zeroed; already-zeroed entries stay zeroed. -/
def applyZero : List Bool → List Nat → Nat → List Bool
  | [], _, _ => []
  | b :: bs, sel, i => (b || sel.contains i) :: applyZero bs sel (i + 1)

/-- Apply the keep-mask: a zeroed position contributes weight 0. -/
def maskWeights : List ℚ → List Bool → List ℚ
  | [], _ => []
  | ws, [] => ws
  | w :: ws, b :: bs => (if b then 0 else w) :: maskWeights ws bs

/-- The state the pruning engine mutates: current weights and the zero set of
the keep-mask (true means pruned). -/
structure PruneState where
  weights : List ℚ
  zeroed : List Bool
  deriving DecidableEq

/-- Modelled from the spec: one round of the pruning-finetuning loop — prune the
selected fraction of the remaining weights, then fine-tune (an arbitrary update
of the surviving weights) with the keep-mask re-applied, so pruned positions
stay at zero. -/
def roundStep (amount : ℚ) (finetune : List ℚ → List ℚ) (s : PruneState) : PruneState :=
  let sel := pruneSelect s.weights s.zeroed amount
  let m := applyZero s.zeroed sel 0
  { weights := maskWeights (finetune (maskWeights s.weights m)) m, zeroed := m }

/-- Run the rounds of a pruning schedule (amount and fine-tune step per round). -/
def runRounds (sch : List (ℚ × (List ℚ → List ℚ))) (s : PruneState) : PruneState :=
  sch.foldl (fun st p => roundStep p.1 p.2 st) s

/-- The engine state after the first r rounds of the schedule. -/
def stateAfter (sch : List (ℚ × (List ℚ → List ℚ))) (s : PruneState) (r : Nat) : PruneState :=
  runRounds (sch.take r) s

/-- The zeroed positions of m1 are a subset of those of m2. -/
def subsetMask (m1 m2 : List Bool) : Prop :=
  ∀ i, m1.getD i false = true → m2.getD i false = true

/-- The argparse defaults of prune.py (lines 155-259). -/
def argsDefault : Args :=
  { local_rank := 0
    num_epochs := 2
    model_name := "RN50"
    band := "all"
    pretrained := false
    smallset := false
    mask_type := "spectral"
    batch_size := 64
    ratio := 50
    lr := 1/10000
    pruning_ft := false
    pruning_test := false
    global_prune := false
    conv2d_prune_amount := 1/5
    linear_prune_amount := 1/10
    pruning_rounds := 1
    seed := 44
    checkpoint_path := "./checkpoints/mask_0/rn50ft.pth" }

/-- An empty torch environment. -/
def torchEnv0 : TorchEnv :=
  { checkpointFile := [], modelDict := fun _ => [], headDict := fun _ => [] }

/-- Defaults with --ratio 200, so main receives ratio 2.0. -/
def argsRatio200 : Args := { argsDefault with ratio := 200 }

/-- The call main receives for --model_name RN18 at the remaining defaults. -/
def cRN18 : MainCall := entryMainCall { argsDefault with model_name := "RN18" }

/-- A torch environment whose checkpoint matches the full RN50 state dict. -/
def envC6 : TorchEnv :=
  { checkpointFile := [("fc.weight", [1, 2048]), ("fc.bias", [1])]
    modelDict := fun _ => [("fc.weight", [1, 2048]), ("fc.bias", [1])]
    headDict := fun _ => [] }

/-- The call main receives at the argparse defaults. -/
def cC6 : MainCall := entryMainCall argsDefault

/-- A two-round pruning schedule at amount one half with identity fine-tuning. -/
def schW : List (ℚ × (List ℚ → List ℚ)) := [(1/2, fun w => w), (1/2, fun w => w)]

/-- A four-weight layer with nothing pruned yet. -/
def sW : PruneState := { weights := [3, 1, 2, 4], zeroed := [false, false, false, false] }

/-- A per-sample draw whose blur coin 1/20 falls below blur_prob 1/10. -/
def dLow : Draws := ⟨1/20, 3/2, 1, 0, 0⟩

/-- A per-sample draw whose blur coin 1/2 falls above blur_prob 1/10. -/
def dHigh : Draws := ⟨1/2, 3/2, 1, 0, 0⟩

lemma augPlan_val_opt_draw_dependent : augPlan val_opt dLow ≠ augPlan val_opt dHigh := by
  intro hEq
  have h1 : (augPlan val_opt dLow).blurApplied = (augPlan val_opt dHigh).blurApplied := by
    rw [hEq]
  have hb1 : decide (dLow.blurCoin < val_opt.blur_prob) = true :=
    decide_eq_true (by norm_num [dLow, val_opt])
  have hb2 : decide (dHigh.blurCoin < val_opt.blur_prob) = false :=
    decide_eq_false (by norm_num [dHigh, val_opt])
  rw [show (augPlan val_opt dLow).blurApplied = decide (dLow.blurCoin < val_opt.blur_prob) from rfl,
      show (augPlan val_opt dHigh).blurApplied = decide (dHigh.blurCoin < val_opt.blur_prob) from
        rfl,
      hb1, hb2] at h1
  exact Bool.noConfusion h1

lemma applyZero_preserves (sel : List Nat) :
    ∀ (bs : List Bool) (i j : Nat), bs.getD j false = true →
      (applyZero bs sel i).getD j false = true := by
  intro bs
  induction bs with
  | nil =>
    intro i j h
    simp [List.getD] at h
  | cons b bs ih =>
    intro i j h
    cases j with
    | zero =>
      simp only [applyZero, List.getD_cons_zero] at h ⊢
      rw [h]
      simp
    | succ j =>
      simp only [applyZero, List.getD_cons_succ] at h ⊢
      exact ih (i + 1) j h

lemma roundStep_mono (a : ℚ) (ft : List ℚ → List ℚ) (s : PruneState) :
    subsetMask s.zeroed (roundStep a ft s).zeroed := by
  intro j h
  exact applyZero_preserves (pruneSelect s.weights s.zeroed a) s.zeroed 0 j h

lemma stateAfter_succ_mono (sch : List (ℚ × (List ℚ → List ℚ))) (s : PruneState) (n : Nat) :
    subsetMask (stateAfter sch s n).zeroed (stateAfter sch s (n + 1)).zeroed := by
  unfold stateAfter runRounds
  rw [List.take_succ, List.foldl_append]
  cases sch[n]? with
  | none =>
    intro j h
    exact h
  | some x =>
    intro j h
    exact roundStep_mono x.1 x.2 _ j h

lemma stateAfter_mono_le (sch : List (ℚ × (List ℚ → List ℚ))) (s : PruneState)
    (r1 r2 : Nat) (h : r1 ≤ r2) :
    subsetMask (stateAfter sch s r1).zeroed (stateAfter sch s r2).zeroed := by
  induction r2, h using Nat.le_induction with
  | base =>
    intro j hj
    exact hj
  | succ n hn ih =>
    intro j hj
    exact stateAfter_succ_mono sch s n j (ih j hj)

/-- C1: out of range mask ratios are meant to raise ValueError in `main` before
any mask generator, data loading or sample processing; the code instead reaches
`raise valueError(...)` at prune.py line 83, an undefined lowercase name, so the
failure at --ratio 200 (main receives 2.0) is a NameError — raised, as the claim
requires, before any mask generator is constructed and before any data loads. -/
theorem ratio_out_of_range_hits_undefined_name :
    moduleRun [("LOCAL_RANK", "0")] argsRatio200 torchEnv0 =
      ([Event.initProcessGroup], some (PyErr.nameError "valueError")) := by
  have h2 : ((200 : Int) : ℚ) / 100 > 1 ∨ ((200 : Int) : ℚ) / 100 < 0 := by
    left
    norm_num
  have key : mainSteps (((200 : Int) : ℚ) / 100) "all" "spectral" "RN50" false "RN50" torchEnv0 =
      ([Event.initProcessGroup], some (PyErr.nameError "valueError")) := by
    unfold mainSteps
    rw [if_pos h2]
  exact key

/-- C2: pruning is monotonic and cumulative across the rounds of the iterative
pruning-finetuning loop — for rounds r1 < r2 the zero set after r1 is a subset
of the zero set after r2, for every schedule, every fine-tuning behaviour and
every starting state; a zeroed position is never revived. -/
theorem pruning_zero_set_monotone (sch : List (ℚ × (List ℚ → List ℚ))) (s : PruneState)
    (r1 r2 : Nat) (h : r1 < r2) :
    subsetMask (stateAfter sch s r1).zeroed (stateAfter sch s r2).zeroed :=
  stateAfter_mono_le sch s r1 r2 h.le

theorem pruning_zero_set_monotone_witness :
    1 < 2 ∧ subsetMask (stateAfter schW sW 1).zeroed (stateAfter schW sW 2).zeroed :=
  ⟨by decide, pruning_zero_set_monotone schW sW 1 2 (by decide)⟩

/-- C3: for every model_name that is not RN50, not RN50_mod and not
clip-prefixed, `main` raises ValueError (prune.py line 123) and the trace stops
before `iterative_pruning_finetuning`: no training begins. -/
theorem unrecognized_model_name_fails_before_training (c : MainCall) (e : TorchEnv)
    (h0 : 0 ≤ c.ratio) (h1 : c.ratio ≤ 1)
    (hn1 : c.model_name ≠ "RN50") (hn2 : c.model_name ≠ "RN50_mod")
    (hn3 : pyStartswith c.model_name "clip" = false) :
    mainRunC c e = (traceHead c.ratio c.band c.mask_type,
      some (PyErr.valueError ("Model " ++ c.model_name ++ " not recognized!")))
    ∧ Event.pruningStarted ∉ (mainRunC c e).1 := by
  have hcond : ¬(c.ratio > 1 ∨ c.ratio < 0) := by
    push_neg
    exact ⟨h1, h0⟩
  have hbm : buildModel c.model_name =
      Except.error (PyErr.valueError ("Model " ++ c.model_name ++ " not recognized!")) := by
    unfold buildModel
    rw [if_neg hn1, if_neg hn2, if_neg (by simp [hn3])]
  have hmain : mainRunC c e = (traceHead c.ratio c.band c.mask_type,
      some (PyErr.valueError ("Model " ++ c.model_name ++ " not recognized!"))) := by
    unfold mainRunC mainSteps
    rw [if_neg hcond, hbm]
    rfl
  refine ⟨hmain, ?_⟩
  rw [hmain]
  simp [traceHead]

theorem unrecognized_model_name_fails_before_training_witness :
    mainRunC cRN18 torchEnv0 = (traceHead cRN18.ratio cRN18.band cRN18.mask_type,
      some (PyErr.valueError ("Model " ++ cRN18.model_name ++ " not recognized!")))
    ∧ Event.pruningStarted ∉ (mainRunC cRN18 torchEnv0).1 :=
  unrecognized_model_name_fails_before_training cRN18 torchEnv0
    (by show (0 : ℚ) ≤ ((50 : Int) : ℚ) / 100; norm_num)
    (by show ((50 : Int) : ℚ) / 100 ≤ 1; norm_num)
    (by decide) (by decide) (by decide)

/-- C4: every mask_type outside the argparse choices pixel, spectral, patch,
nomask makes the parser exit with a configuration error: the run produces an
empty trace — `main` never starts, so no training begins. -/
theorem invalid_mask_type_fails_before_training (env : Environ) (a : Args) (e : TorchEnv)
    (hl : (envLookup (ncclEnv env) "LOCAL_RANK").isSome = true)
    (hm : a.mask_type ∉ mask_type_choices) :
    ∃ msg, moduleRun env a e = ([], some (PyErr.argparseError msg)) := by
  unfold moduleRun
  cases hv : envLookup (ncclEnv env) "LOCAL_RANK" with
  | none =>
    rw [hv] at hl
    simp at hl
  | some v =>
    by_cases h1 : a.model_name ∈ model_name_choices
    · by_cases h2 : a.band ∈ band_choices
      · refine ⟨"argument --mask_type: invalid choice", ?_⟩
        have hp : parseArgs a =
            Except.error (PyErr.argparseError "argument --mask_type: invalid choice") := by
          unfold parseArgs
          rw [if_pos h1, if_pos h2, if_neg hm]
        rw [hp]
      · refine ⟨"argument --band: invalid choice", ?_⟩
        have hp : parseArgs a =
            Except.error (PyErr.argparseError "argument --band: invalid choice") := by
          unfold parseArgs
          rw [if_pos h1, if_neg h2]
        rw [hp]
    · refine ⟨"argument --model_name: invalid choice", ?_⟩
      have hp : parseArgs a =
          Except.error (PyErr.argparseError "argument --model_name: invalid choice") := by
        unfold parseArgs
        rw [if_neg h1]
      rw [hp]

theorem invalid_mask_type_fails_before_training_witness :
    ∃ msg, moduleRun [("LOCAL_RANK", "0")] { argsDefault with mask_type := "fourier" }
      torchEnv0 = ([], some (PyErr.argparseError msg)) :=
  invalid_mask_type_fails_before_training [("LOCAL_RANK", "0")]
    { argsDefault with mask_type := "fourier" } torchEnv0 (by decide) (by decide)

/-- C5: the mask-generator dispatch of `main` is correct — spectral builds a
FrequencyMaskGenerator with the given ratio and band, pixel a PixelMaskGenerator
with the ratio, patch a PatchMaskGenerator with the ratio, and nomask yields no
generator, so the masking step of the transform returns the image unmodified. -/
theorem mask_generator_dispatch_correct (r : ℚ) (b : String)
    (ap : MaskGenerator → Image → Image) (im : Image) :
    makeMaskGenerator r b "spectral" = some (MaskGenerator.frequency r b)
    ∧ makeMaskGenerator r b "pixel" = some (MaskGenerator.pixel r)
    ∧ makeMaskGenerator r b "patch" = some (MaskGenerator.patch r)
    ∧ makeMaskGenerator r b "nomask" = none
    ∧ applyMaskStep ap (makeMaskGenerator r b "nomask") im = im :=
  ⟨rfl, rfl, rfl, rfl, rfl⟩

/-- C6: when args.pretrained is false, the checkpoint is restored before pruning
begins — into `model.module.fc` only when args.model_name is clip and into the
full model otherwise — and a checkpoint whose parameter shapes do not match
fails with a load error, with pruning never starting. -/
theorem checkpoint_restore_dispatch (c : MainCall) (e : TorchEnv) (b : Backbone)
    (h0 : 0 ≤ c.ratio) (h1 : c.ratio ≤ 1)
    (hb : buildModel c.model_name = Except.ok b)
    (hp : c.args.pretrained = false) :
    (c.args.model_name = "clip" → loadTarget c.args.model_name e b = e.headDict b)
    ∧ (c.args.model_name ≠ "clip" → loadTarget c.args.model_name e b = e.modelDict b)
    ∧ (loadTarget c.args.model_name e b = e.checkpointFile →
        mainRunC c e = (traceHead c.ratio c.band c.mask_type ++
          [Event.modelBuilt, Event.checkpointLoaded (c.args.model_name == "clip"),
           Event.pruningStarted], none))
    ∧ (loadTarget c.args.model_name e b ≠ e.checkpointFile →
        mainRunC c e = (traceHead c.ratio c.band c.mask_type ++ [Event.modelBuilt],
          some (PyErr.loadError "size mismatch for state_dict"))
        ∧ Event.pruningStarted ∉ (mainRunC c e).1) := by
  have hcond : ¬(c.ratio > 1 ∨ c.ratio < 0) := by
    push_neg
    exact ⟨h1, h0⟩
  refine ⟨fun hclip => by unfold loadTarget; rw [if_pos hclip],
          fun hclip => by unfold loadTarget; rw [if_neg hclip], ?_, ?_⟩
  · intro hmatch
    unfold mainRunC mainSteps
    rw [if_neg hcond, hb]
    simp only [afterModel]
    rw [if_pos hp, if_pos hmatch]
  · intro hmis
    have hmain : mainRunC c e = (traceHead c.ratio c.band c.mask_type ++ [Event.modelBuilt],
        some (PyErr.loadError "size mismatch for state_dict")) := by
      unfold mainRunC mainSteps
      rw [if_neg hcond, hb]
      simp only [afterModel]
      rw [if_pos hp, if_neg hmis]
    refine ⟨hmain, ?_⟩
    rw [hmain]
    simp [traceHead]

theorem checkpoint_restore_dispatch_witness :
    mainRunC cC6 envC6 = (traceHead cC6.ratio cC6.band cC6.mask_type ++
      [Event.modelBuilt, Event.checkpointLoaded (cC6.args.model_name == "clip"),
       Event.pruningStarted], none) :=
  (checkpoint_restore_dispatch cC6 envC6 Backbone.rn50
    (by show (0 : ℚ) ≤ ((50 : Int) : ℚ) / 100; norm_num)
    (by show ((50 : Int) : ℚ) / 100 ≤ 1; norm_num)
    rfl rfl).2.2.1 (by decide)

/-- C7 counterexample: the validation augmentation is not deterministic per
sample — val_opt keeps blur_prob at the train value 1/10 instead of 0, so two
different per-sample random draws produce different augmentations (blur applied
with sigma 3/2 versus no blur). -/
theorem val_augmentation_randomized_counterexample :
    augPlan val_opt dLow ≠ augPlan val_opt dHigh
    ∧ val_opt.blur_prob = train_opt.blur_prob :=
  ⟨augPlan_val_opt_draw_dependent, rfl⟩

/-- C7 (amended): the validation configuration differs from the train one only
in the perturbation parameter ranges and method — blur sigma fixed to the train
midpoint (0 + 3) / 2, JPEG quality fixed to the midpoint (30 + 100) / 2, JPEG
method fixed to pil — while the perturbation probabilities are unchanged at the
train values, so whether a perturbation is applied is still randomized per
sample; only the perturbation parameters are deterministic. -/
theorem val_opt_midpoint_params_probabilities_unchanged :
    val_opt.rz_interp = train_opt.rz_interp
    ∧ val_opt.loadSize = train_opt.loadSize
    ∧ val_opt.blur_prob = train_opt.blur_prob
    ∧ val_opt.jpg_prob = train_opt.jpg_prob
    ∧ val_opt.blur_sig = [(0 + 3) / 2]
    ∧ val_opt.jpg_qual = [(30 + 100) / 2]
    ∧ val_opt.jpg_method = ["pil"]
    ∧ augPlan val_opt dLow ≠ augPlan val_opt dHigh :=
  ⟨rfl, rfl, rfl, rfl, rfl, rfl, rfl, augPlan_val_opt_draw_dependent⟩

/-- C8: the --num_epochs option never affects execution — the entry block calls
`main` with the literal num_epochs 5 whatever the parsed arguments were, and the
body of `main` never reads its num_epochs parameter, so its run is unchanged
under any value of that field. -/
theorem num_epochs_flag_never_used :
    (∀ a : Args, (entryMainCall a).num_epochs = 5)
    ∧ (∀ (c : MainCall) (e : TorchEnv) (n : Int),
        mainRunC { c with num_epochs := n } e = mainRunC c e) :=
  ⟨fun _ => rfl, fun _ _ _ => rfl⟩

/-- C9: with LOCAL_RANK unset in the environment, the bare subscript at
prune.py line 32 raises KeyError at module import — the result is the same for
every argument record, so argument parsing and configuration validation never
run. -/
theorem missing_local_rank_import_keyerror (env : Environ) (a : Args) (e : TorchEnv)
    (h : envLookup env "LOCAL_RANK" = none) :
    moduleRun env a e = ([], some (PyErr.keyError "LOCAL_RANK"))
    ∧ ∀ a2 : Args, moduleRun env a2 e = moduleRun env a e := by
  have hn : envLookup (ncclEnv env) "LOCAL_RANK" = none := by
    simp only [ncclEnv, setEnv, envLookup]
    rw [if_neg (by decide), if_neg (by decide)]
    exact h
  constructor
  · unfold moduleRun
    rw [hn]
  · intro a2
    unfold moduleRun
    rw [hn]

theorem missing_local_rank_import_keyerror_witness :
    moduleRun [] argsDefault torchEnv0 = ([], some (PyErr.keyError "LOCAL_RANK"))
    ∧ ∀ a2 : Args, moduleRun [] a2 torchEnv0 = moduleRun [] argsDefault torchEnv0 :=
  missing_local_rank_import_keyerror [] argsDefault torchEnv0 (by decide)

/-- C10: with mask_type nomask the supplied --ratio and --band are ignored —
the ratio passed to `main` is 0, the band passed to `main` and args.band are the
string None, and the checkpoint folder is ./checkpoints/mask_0. -/
theorem nomask_overrides_ratio_band_folder (a : Args) (h : a.mask_type = "nomask") :
    (entryMainCall a).ratio = 0
    ∧ (entryMainCall a).band = "None"
    ∧ (entryMainCall a).args.band = "None"
    ∧ entryCkptFolder a = "./checkpoints/mask_0" := by
  have hc : ¬(a.mask_type ≠ "nomask") := by simp [h]
  refine ⟨?_, ?_, ?_, ?_⟩
  · show (entryRatioVar a : ℚ) / 100 = 0
    unfold entryRatioVar
    rw [if_neg hc]
    norm_num
  · show entryBand a = "None"
    unfold entryBand
    rw [if_neg hc]
  · show (entryArgs a).band = "None"
    unfold entryArgs
    rw [if_neg hc]
  · unfold entryCkptFolder
    rw [if_neg hc]
    rfl

theorem nomask_overrides_ratio_band_folder_witness :
    (entryMainCall { argsDefault with mask_type := "nomask", ratio := 87, band := "low" }).ratio = 0
    ∧ (entryMainCall { argsDefault with mask_type := "nomask", ratio := 87, band := "low" }).band = "None"
    ∧ (entryMainCall { argsDefault with mask_type := "nomask", ratio := 87, band := "low" }).args.band = "None"
    ∧ entryCkptFolder { argsDefault with mask_type := "nomask", ratio := 87, band := "low" } =
        "./checkpoints/mask_0" :=
  nomask_overrides_ratio_band_folder
    { argsDefault with mask_type := "nomask", ratio := 87, band := "low" } rfl
